import Mathlib

/-!
Verification development for the dstack run/job scheduling and
instance-provisioning control plane.  Definitions are shallow embeddings of
the Python source:

* `dstack/_internal/server/background/tasks/process_submitted_jobs.py`
  (`process_submitted_jobs`, `_process_submitted_job`, `_run_job`);
* `dstack/_internal/server/services/runs.py`
  (`submit_run`, `delete_runs`, `create_job_model_for_new_submission`,
   `run_model_to_run`, `get_run_status`);
* `dstack/_internal/backend/base/runs.py` of the CLI backend
  (the request-head handling shared by `_create_run` and `_update_run`).

Database sessions become explicit state passing, SQLAlchemy rows become
structures, enums become inductives, floats (prices) are modelled as `Nat`
(only their ordering matters), and serialized JSON columns are modelled by
the parsed values they round-trip to.
-/

namespace Dstack

/-- Job statuses (`JobStatus` in `core/models/runs.py`). -/
inductive JobStatus where
  | submitted
  | pending
  | provisioning
  | pulling
  | running
  | terminating
  | terminated
  | aborted
  | failed
  | done
deriving DecidableEq, Repr

/-- Modelled from the spec: the finished (terminal) job statuses are
`TERMINATED`, `ABORTED`, `FAILED`, `DONE` (`JobStatus.finished_statuses`
lives in `core/models/runs.py`, which is not part of the sample). -/
def JobStatus.is_finished : JobStatus → Bool
  | .terminated => true
  | .aborted => true
  | .failed => true
  | .done => true
  | _ => false

/-- Job error codes (`JobErrorCode` in `core/models/runs.py`). -/
inductive JobErrorCode where
  | failed_to_start_due_to_no_capacity
  | instance_terminated
  | interrupted_by_no_capacity
  | container_exited_with_error
deriving DecidableEq, Repr

/-- Instance statuses (`InstanceStatus` in `core/models/runs.py`). -/
inductive InstanceStatus where
  | pending
  | creating
  | starting
  | ready
  | busy
  | idle
  | terminating
  | terminated
deriving DecidableEq, Repr

/-- Creation policies (`CreationPolicy` in `core/models/profiles.py`). -/
inductive CreationPolicy where
  | reuse
  | reuse_or_create
deriving DecidableEq, Repr

/-- `JobProvisioningData` as built in `_run_job`
(`process_submitted_jobs.py`, lines 252-265).  The float `price` is
modelled as `Nat`. -/
structure JobProvisioningData where
  backend : String
  instance_type : String
  instance_id : String
  hostname : String
  region : String
  price : Nat
  username : String
  ssh_port : Nat
  dockerized : Bool
  pool_id : String
deriving DecidableEq, Repr

/-- A pool instance (`InstanceModel`): the fields `_process_submitted_job`
reads.  `job_provisioning_data` is the stored column, modelled by the
parsed value it deserializes to. -/
structure Instance where
  name : String
  status : InstanceStatus
  job_provisioning_data : Option JobProvisioningData
  price : Nat
deriving DecidableEq, Repr

/-- Modelled from the spec: `filter_pool_instances(instances, profile,
resources, status)` (in `server/services/pools.py`, not part of the
sample) keeps the instances in the requested status whose frozen offer
passes the profile and resource filters; the profile/resource test is the
abstract predicate `accept`. -/
def filter_pool_instances (accept : Instance → Bool) (status : InstanceStatus)
    (instances : List Instance) : List Instance :=
  instances.filter (fun i => decide (i.status = status) && accept i)

/-- Lexicographic code-point comparison of character lists: Python's
`≤` on strings, which drives `sorted` with a string key. -/
def charListLe : List Char → List Char → Bool
  | [], _ => true
  | _ :: _, [] => false
  | a :: as, b :: bs =>
    if a < b then true
    else if b < a then false
    else charListLe as bs

/-- Python's `≤` on strings: lexicographic on the code points. -/
def nameLe (s t : String) : Bool :=
  charListLe s.data t.data

/-- Stable insertion step for sorting instances by `name`, the key used at
`process_submitted_jobs.py` line 126 (`sorted(..., key=lambda instance:
instance.name)`). -/
def insertByName (x : Instance) : List Instance → List Instance
  | [] => [x]
  | y :: ys => if nameLe x.name y.name then x :: y :: ys else y :: insertByName x ys

/-- Stable sort of instances by `name` (Python's `sorted` is stable; an
element inserted from the left of the list goes before later elements with
an equal key, so the head agrees with Python's `sorted(...)[0]`). -/
def sortByName : List Instance → List Instance
  | [] => []
  | x :: xs => insertByName x (sortByName xs)

/-- `sorted(relevant_instances, key=...)[0]` guarded by
`if relevant_instances:`: `none` exactly on the empty list. -/
def pick_instance (l : List Instance) : Option Instance :=
  (sortByName l).head?

/-- Outcome of one `backend.compute().run_job(...)` call for a given offer:
either a `LaunchedInstanceInfo` or a raised `BackendError`.  The spec
classifies backend errors as retriable or fatal; the flag records that
classification on the raised error. -/
inductive RunJobOutcome where
  | success (instance_id ip_address region username : String)
      (ssh_port : Nat) (dockerized : Bool)
  | backendError (retriable : Bool)
deriving DecidableEq, Repr

/-- An aggregated offer as iterated by `_run_job`: the backend it came
from, the offer fields the loop reads, and the outcome the backend's
`run_job` would produce for it. -/
structure OfferAttempt where
  backend : String
  instance_name : String
  region : String
  price : Nat
  outcome : RunJobOutcome
deriving DecidableEq, Repr

/-- The `JobProvisioningData(...)` constructed from a successful launch
(`process_submitted_jobs.py`, lines 252-265). -/
def mk_job_provisioning_data (o : OfferAttempt)
    (instance_id ip_address region username : String) (ssh_port : Nat)
    (dockerized : Bool) (pool_id : String) : JobProvisioningData :=
  { backend := o.backend
    instance_type := o.instance_name
    instance_id := instance_id
    hostname := ip_address
    region := region
    price := o.price
    username := username
    ssh_port := ssh_port
    dockerized := dockerized
    pool_id := pool_id }

/-- The offer loop of `_run_job` (lines 219-268): walk the offers in
order; a success returns the built `JobProvisioningData` with the offer;
any `BackendError` is caught and the loop continues with the next offer. -/
def run_job_loop (pool_id : String) : List OfferAttempt →
    Option (JobProvisioningData × OfferAttempt)
  | [] => none
  | o :: rest =>
    match o.outcome with
    | .success instance_id ip region username port dockerized =>
        some (mk_job_provisioning_data o instance_id ip region username port
          dockerized pool_id, o)
    | .backendError _ => run_job_loop pool_id rest

/-- `_run_job` (lines 198-268): fetch the aggregated offers (a
`BackendError` from the offer query, `offers_error`, is caught and yields
`(None, None)`), then run the offer loop. -/
def run_job (pool_id : String) (offers_error : Bool)
    (offers : List OfferAttempt) :
    Option (JobProvisioningData × OfferAttempt) :=
  if offers_error then none else run_job_loop pool_id offers

/-- The inputs `_process_submitted_job` reads, with the database session
made explicit: the resolved pool's instances, the profile/resource filter
predicate, the run profile's creation policy, `job.is_retry_active()`
(defined in `core/models/runs.py`, not part of the sample; the spec makes
it "now < run.submitted_at + retry window"), and the data driving
`_run_job`. -/
structure SubmittedJobCtx where
  pool_instances : List Instance
  accept : Instance → Bool
  creation_policy : CreationPolicy
  retry_active : Bool
  pool_id : String
  offers_error : Bool
  offers : List OfferAttempt

/-- What `_process_submitted_job` commits for the job, plus the visible
side effects: the pool instance claimed for reuse (set `BUSY` with the job
bound), whether a fresh `InstanceModel` was added, and whether `_run_job`
(the Provisioner: offer query plus backend `run_job` calls) was invoked. -/
structure ProcessResult where
  job_status : JobStatus
  error_code : Option JobErrorCode
  job_provisioning_data : Option JobProvisioningData
  claimed_instance : Option Instance
  created_instance : Bool
  provisioner_invoked : Bool
deriving Repr

/-- `_process_submitted_job` (lines 79-195): filter the pool for `READY`
matching instances; if any, claim the name-least one and go
`PROVISIONING` copying its provisioning data; else under `reuse` fail
with `FAILED_TO_START_DUE_TO_NO_CAPACITY`; else call `_run_job` and
either go `PROVISIONING` creating a `BUSY` instance, or fall to
`PENDING`/`FAILED` by `is_retry_active()`. -/
def process_submitted_job (ctx : SubmittedJobCtx) : ProcessResult :=
  match pick_instance (filter_pool_instances ctx.accept .ready ctx.pool_instances) with
  | some inst =>
      { job_status := .provisioning
        error_code := none
        job_provisioning_data := inst.job_provisioning_data
        claimed_instance := some inst
        created_instance := false
        provisioner_invoked := false }
  | none =>
      if ctx.creation_policy = .reuse then
        { job_status := .failed
          error_code := some .failed_to_start_due_to_no_capacity
          job_provisioning_data := none
          claimed_instance := none
          created_instance := false
          provisioner_invoked := false }
      else
        match run_job ctx.pool_id ctx.offers_error ctx.offers with
        | some (jpd, _offer) =>
            { job_status := .provisioning
              error_code := none
              job_provisioning_data := some { jpd with pool_id := ctx.pool_id }
              claimed_instance := none
              created_instance := true
              provisioner_invoked := true }
        | none =>
            if ctx.retry_active then
              { job_status := .pending
                error_code := none
                job_provisioning_data := none
                claimed_instance := none
                created_instance := false
                provisioner_invoked := true }
            else
              { job_status := .failed
                error_code := some .failed_to_start_due_to_no_capacity
                job_provisioning_data := none
                claimed_instance := none
                created_instance := false
                provisioner_invoked := true }

/-! ## The `process_submitted_jobs` outer loop (lines 46-66)

The job table is a list of `(id, status)` pairs; the module-level
`SUBMITTED_PROCESSING_JOBS_IDS` set is a `Finset ℕ`.  `_process_job` is
abstracted by whether it raises (`raises = true`) — either way the
`finally` clause removes the claimed id. -/

/-- The claim query (lines 49-57): the first job whose status is
`SUBMITTED` and whose id is not in the in-flight set. -/
def select_submitted (jobs : List (Nat × JobStatus)) (ids : Finset Nat) :
    Option Nat :=
  (jobs.find? (fun j => decide (j.2 = .submitted) && decide (j.1 ∉ ids))).map
    (fun j => j.1)

/-- One invocation of `process_submitted_jobs`: claim a job id into the
in-flight set, run `_process_job` (which may raise), and remove the id in
the `finally` clause on both the normal and the raising path.  Returns the
final in-flight set and whether an exception propagated. -/
def process_submitted_jobs (jobs : List (Nat × JobStatus))
    (ids : Finset Nat) (raises : Bool) : Finset Nat × Bool :=
  match select_submitted jobs ids with
  | none => (ids, false)
  | some id =>
      let claimed := insert id ids
      if raises then (claimed.erase id, true) else (claimed.erase id, false)

/-! ## `run_model_to_run` / `get_run_status` (`services/runs.py`, lines 425-465)

A `JobModel` row as read by `run_model_to_run`: its `(job_num,
submission_num)` sort key and its status. -/

/-- A persisted job row (`JobModel`). -/
structure JobRow where
  job_num : Nat
  submission_num : Nat
  status : JobStatus
deriving DecidableEq, Repr

/-- The sort key comparison of line 428:
`sorted(run_model.jobs, key=lambda j: (j.job_num, j.submission_num))`,
as a `≤` test on the lexicographic pair. -/
def jobRowLe (a b : JobRow) : Bool :=
  a.job_num < b.job_num ∨ (a.job_num = b.job_num ∧ a.submission_num ≤ b.submission_num)

/-- Stable insertion step for `jobRowLe`. -/
def insertJobRow (x : JobRow) : List JobRow → List JobRow
  | [] => [x]
  | y :: ys => if jobRowLe x y then x :: y :: ys else y :: insertJobRow x ys

/-- Stable sort of job rows by `(job_num, submission_num)` (Python's
`sorted` is stable). -/
def sortJobRows : List JobRow → List JobRow
  | [] => []
  | x :: xs => insertJobRow x (sortJobRows xs)

/-- A `Job` as assembled by `run_model_to_run`: the submissions of one
`itertools.groupby` group, in order. -/
structure RunJob where
  submissions : List JobRow
deriving DecidableEq, Repr

/-- The grouping of line 429: `itertools.groupby(run_jobs)` is called
WITHOUT a key, so it groups consecutive `==`-equal elements; SQLAlchemy
rows compare by object identity and all rows are distinct objects, so
every row forms its own singleton group. -/
def run_model_to_jobs (rows : List JobRow) : List RunJob :=
  (sortJobRows rows).map (fun r => { submissions := [r] })

/-- `get_run_status` (lines 461-465): `jobs[0]` (an `IndexError` on an
empty list is `none`); `SUBMITTED` when that job has no submissions, else
the status of its last submission. -/
def get_run_status : List RunJob → Option JobStatus
  | [] => none
  | j :: _ =>
      match j.submissions.getLast? with
      | none => some .submitted
      | some r => some r.status

/-- The run status computed by `run_model_to_run` from the stored job
rows: `get_run_status` after sorting and grouping. -/
def run_status_of_rows (rows : List JobRow) : Option JobStatus :=
  get_run_status (run_model_to_jobs rows)

/-! ## `submit_run` / `delete_runs` (`services/runs.py`, lines 279-422) -/

/-- A persisted run (`RunModel`) with its job rows; `deleted` is the
soft-delete tombstone. -/
structure RunRow where
  name : String
  deleted : Bool
  job_rows : List JobRow
deriving DecidableEq, Repr

/-- The project-scoped database state `submit_run` touches: the repo ids
present, the number of configured backends, the non-deleted pool names,
and the run rows. -/
structure ProjState where
  repos : List String
  backends : Nat
  pools : List String
  runs : List RunRow
deriving DecidableEq, Repr

/-- The exceptions `submit_run` can raise before creating anything. -/
inductive SubmitError where
  | repoDoesNotExist
  | noBackends
  | activeRuns
deriving DecidableEq, Repr

/-- A run is active when the status `run_model_to_run` computes for it is
not finished (`delete_runs`, lines 403-408).  A run with no job rows makes
`run_model_to_run` raise (`jobs[0]`); such states are outside the modelled
domain and count as not active here. -/
def runIsActive (r : RunRow) : Bool :=
  match run_status_of_rows r.job_rows with
  | some s => ! s.is_finished
  | none => false

/-- `delete_runs` (lines 397-422): select every run with a matching name
(deleted ones included), raise `ServerClientError` if any is active, else
`UPDATE ... SET deleted = TRUE` on the matching rows — rows are marked,
never removed. -/
def delete_runs (st : ProjState) (names : List String) :
    Except SubmitError ProjState :=
  let targets := st.runs.filter (fun r => names.contains r.name)
  if targets.any runIsActive then .error .activeRuns
  else .ok { st with
    runs := st.runs.map (fun r =>
      if names.contains r.name then { r with deleted := true } else r) }

/-- Modelled from the spec: the default pool name (`DEFAULT_POOL_NAME` in
`core/models/profiles.py`, not part of the sample; the spec calls it the
implicit `default` pool). -/
def DEFAULT_POOL_NAME : String := "default"

/-- A job built by `get_jobs_from_run_spec`: its index and the number of
prior submissions (`len(job.job_submissions)`). -/
structure SpecJob where
  job_num : Nat
  prior_submissions : Nat
deriving DecidableEq, Repr

/-- Modelled from the spec: `get_jobs_from_run_spec` (in
`server/services/jobs`, not part of the sample) builds fresh jobs from the
run configuration, numbered from 0, each with no prior submissions. -/
def get_jobs_from_run_spec (num_jobs : Nat) : List SpecJob :=
  (List.range num_jobs).map (fun i => { job_num := i, prior_submissions := 0 })

/-- `create_job_model_for_new_submission` (lines 347-367): a new row in
status `status` with `submission_num = len(job.job_submissions)`. -/
def create_job_model_for_new_submission (j : SpecJob) (status : JobStatus) :
    JobRow :=
  { job_num := j.job_num, submission_num := j.prior_submissions, status := status }

/-- Arguments of `submit_run` drawn from the run spec: the repo id, the
explicit run name if any, the profile's pool name if any, and the number
of jobs the configuration produces. -/
structure SubmitArgs where
  repo_id : String
  run_name : Option String
  profile_pool_name : Option String
  num_jobs : Nat
deriving DecidableEq, Repr

/-- The result of `submit_run`: the state after the call, the exception
raised if any (a raise happens before the session writes of the step that
follows it, so the state is the one already reached), and the created run. -/
structure SubmitOutcome where
  state : ProjState
  error : Option SubmitError
  new_run : Option RunRow
deriving DecidableEq, Repr

/-- The fresh `RunModel` with its `JobModel` rows as added by `submit_run`
(lines 317-339): a non-deleted run named `name` and one row per job of the
spec, each created by `create_job_model_for_new_submission` with status
`SUBMITTED`. -/
def new_run_of (a : SubmitArgs) (name : String) : RunRow :=
  { name := name
    deleted := false
    job_rows := (get_jobs_from_run_spec a.num_jobs).map
      (fun j => create_job_model_for_new_submission j .submitted) }

/-- The pool-creation step of `submit_run` (lines 308-315): create the
pool when no non-deleted pool of the resolved name exists. -/
def with_pool (st : ProjState) (pool_name : String) : ProjState :=
  if st.pools.contains pool_name then st
  else { st with pools := st.pools ++ [pool_name] }

/-- The creation tail of `submit_run` (lines 304-341): resolve the pool
name from the profile (default pool when unset), run the pool-creation
step, then add the fresh run and its job rows. -/
def submit_run_create (st : ProjState) (a : SubmitArgs) (name : String) :
    SubmitOutcome :=
  let st1 := with_pool st (a.profile_pool_name.getD DEFAULT_POOL_NAME)
  { state := { st1 with runs := st1.runs ++ [new_run_of a name] }
    error := none
    new_run := some (new_run_of a name) }

/-- `submit_run` (lines 279-344): check the repo, check
`len(backends) == 0` (raising `ServerClientError("No backends
configured")`), soft-delete the runs holding the requested name (or draw a
fresh generated name), create the pool if absent, then add the `RunModel`
and one `JobModel` per job with status `SUBMITTED`. -/
def submit_run (st : ProjState) (a : SubmitArgs) (fresh_name : String) :
    SubmitOutcome :=
  if ¬ st.repos.contains a.repo_id then
    { state := st, error := some .repoDoesNotExist, new_run := none }
  else if st.backends = 0 then
    { state := st, error := some .noBackends, new_run := none }
  else
    match a.run_name with
    | none => submit_run_create st a fresh_name
    | some n =>
        match delete_runs st [n] with
        | .error e => { state := st, error := some e, new_run := none }
        | .ok st1 => submit_run_create st1 a n

/-! ## Request-head handling in the CLI backend
(`cli/dstack/_internal/backend/base/runs.py`, the block shared by
`_create_run` lines 112-137 and `_update_run` lines 190-213) -/

/-- The statuses `compute.get_request_head` reports (`RequestStatus`). -/
inductive RequestStatus where
  | provisioning
  | running
  | no_capacity
  | terminated
deriving DecidableEq, Repr

/-- Modelled from the spec: `JobStatus.is_unfinished` of the CLI's
`core/job.py` (not part of the sample) — the negation of being in a
terminal status. -/
def JobStatus.is_unfinished (s : JobStatus) : Bool :=
  ! s.is_finished

/-- A stored job as read back by the request-head block: its status, error
code and `job.retry_active()`. -/
structure CliJob where
  status : JobStatus
  error_code : Option JobErrorCode
  retry_active : Bool
deriving DecidableEq, Repr

/-- The update applied to the stored job once a request head was fetched
(both in `_create_run` and `_update_run`): on `NO_CAPACITY`, `PENDING`
when `retry_active()` else `FAILED` with `INTERRUPTED_BY_NO_CAPACITY`; on
`TERMINATED`, the job is re-read and, if still unfinished, set `FAILED`
with `INSTANCE_TERMINATED`; other statuses leave the job unchanged. -/
def job_update_on_request_head (job : CliJob) (rs : RequestStatus) : CliJob :=
  match rs with
  | .no_capacity =>
      if job.retry_active then { job with status := .pending }
      else { job with status := .failed,
                      error_code := some .interrupted_by_no_capacity }
  | .terminated =>
      if job.status.is_unfinished then
        { job with status := .failed, error_code := some .instance_terminated }
      else job
  | _ => job

/-- The guarded block: request heads are only fetched and handled when the
job head's status `is_unfinished()` (line 112 / line 189). -/
def handle_request_head (job : CliJob) (rs : RequestStatus) : CliJob :=
  if job.status.is_unfinished then job_update_on_request_head job rs else job

/-! ## Helper lemmas -/

theorem charListLe_refl : ∀ l : List Char, charListLe l l = true
  | [] => rfl
  | a :: as => by simp [charListLe, lt_irrefl, charListLe_refl as]

theorem charListLe_total : ∀ s t : List Char,
    charListLe s t = false → charListLe t s = true
  | [], _, h => by simp [charListLe] at h
  | _ :: _, [], _ => rfl
  | a :: as, b :: bs, h => by
      by_cases hab : a < b
      · simp [charListLe, hab] at h
      · by_cases hba : b < a
        · simp [charListLe, hba]
        · have h' : charListLe as bs = false := by
            simpa [charListLe, hab, hba] using h
          simpa [charListLe, hab, hba] using charListLe_total as bs h'

theorem charListLe_trans : ∀ s t u : List Char,
    charListLe s t = true → charListLe t u = true → charListLe s u = true
  | [], _, _, _, _ => rfl
  | _ :: _, [], _, h1, _ => by simp [charListLe] at h1
  | _ :: _, _ :: _, [], _, h2 => by simp [charListLe] at h2
  | a :: as, b :: bs, c :: cs, h1, h2 => by
      rcases lt_trichotomy a b with hab | hab | hab
      · rcases lt_trichotomy b c with hbc | hbc | hbc
        · simp [charListLe, lt_trans hab hbc]
        · subst hbc; simp [charListLe, hab]
        · simp [charListLe, not_lt_of_gt hbc, hbc] at h2
      · subst hab
        rcases lt_trichotomy a c with hbc | hbc | hbc
        · simp [charListLe, hbc]
        · subst hbc
          have h1' : charListLe as bs = true := by
            simpa [charListLe, lt_irrefl] using h1
          have h2' : charListLe bs cs = true := by
            simpa [charListLe, lt_irrefl] using h2
          simpa [charListLe, lt_irrefl] using charListLe_trans as bs cs h1' h2'
        · simp [charListLe, not_lt_of_gt hbc, hbc] at h2
      · simp [charListLe, not_lt_of_gt hab, hab] at h1

theorem nameLe_refl (s : String) : nameLe s s = true :=
  charListLe_refl s.data

theorem nameLe_total {s t : String} (h : nameLe s t = false) :
    nameLe t s = true :=
  charListLe_total s.data t.data h

theorem nameLe_trans {s t u : String} (h1 : nameLe s t = true)
    (h2 : nameLe t u = true) : nameLe s u = true :=
  charListLe_trans s.data t.data u.data h1 h2

theorem mem_insertByName {a x : Instance} {l : List Instance} :
    a ∈ insertByName x l ↔ a = x ∨ a ∈ l := by
  induction l with
  | nil => simp [insertByName]
  | cons y ys ih =>
    unfold insertByName
    split
    · simp
    · simp [ih]
      tauto

theorem mem_sortByName {a : Instance} {l : List Instance} :
    a ∈ sortByName l ↔ a ∈ l := by
  induction l with
  | nil => simp [sortByName]
  | cons x xs ih =>
    unfold sortByName
    rw [mem_insertByName, ih]
    simp

theorem sortByName_eq_nil {l : List Instance} :
    sortByName l = [] ↔ l = [] := by
  cases l with
  | nil => simp [sortByName]
  | cons x xs =>
    constructor
    · intro h
      have hx : x ∈ sortByName (x :: xs) := mem_sortByName.mpr (List.mem_cons_self x xs)
      rw [h] at hx
      cases hx
    · intro h
      cases h

theorem sortByName_head_min (l : List Instance) (i : Instance)
    (h : (sortByName l).head? = some i) :
    i ∈ l ∧ ∀ j ∈ l, nameLe i.name j.name = true := by
  induction l generalizing i with
  | nil => simp [sortByName] at h
  | cons x xs ih =>
    unfold sortByName at h
    cases hs : sortByName xs with
    | nil =>
      rw [hs] at h
      have hxs : xs = [] := sortByName_eq_nil.mp hs
      subst hxs
      unfold insertByName at h
      simp at h
      subst h
      refine ⟨List.mem_cons_self x [], ?_⟩
      intro j hj
      simp at hj
      subst hj
      exact nameLe_refl _
    | cons b t =>
      rw [hs] at h
      have hb := ih b (by rw [hs]; rfl)
      unfold insertByName at h
      split at h
      · next hle =>
        simp at h
        subst h
        refine ⟨List.mem_cons_self x xs, ?_⟩
        intro j hj
        rcases List.mem_cons.mp hj with hj | hj
        · subst hj; exact nameLe_refl _
        · exact nameLe_trans hle (hb.2 j hj)
      · next hgt =>
        simp at h
        subst h
        refine ⟨List.mem_cons_of_mem x hb.1, ?_⟩
        intro j hj
        rcases List.mem_cons.mp hj with hj | hj
        · subst hj
          exact nameLe_total (by simpa using hgt)
        · exact hb.2 j hj

theorem pick_instance_spec {l : List Instance} {i : Instance}
    (h : pick_instance l = some i) :
    i ∈ l ∧ ∀ j ∈ l, nameLe i.name j.name = true :=
  sortByName_head_min l i h

theorem pick_instance_eq_none {l : List Instance}
    (h : pick_instance l = none) : l = [] := by
  unfold pick_instance at h
  rw [List.head?_eq_none_iff] at h
  exact sortByName_eq_nil.mp h

theorem filter_pool_instances_nil (accept : Instance → Bool)
    (instances : List Instance)
    (h : ∀ i ∈ instances, i.status = .ready → accept i = false) :
    filter_pool_instances accept .ready instances = [] := by
  unfold filter_pool_instances
  rw [List.filter_eq_nil_iff]
  intro i hi
  simp only [Bool.and_eq_true, decide_eq_true_eq, not_and]
  intro hready
  rw [h i hi hready]
  simp

theorem process_claimed_eq (ctx : SubmittedJobCtx) :
    (process_submitted_job ctx).claimed_instance =
      pick_instance (filter_pool_instances ctx.accept .ready ctx.pool_instances) := by
  unfold process_submitted_job
  cases hp : pick_instance (filter_pool_instances ctx.accept .ready ctx.pool_instances) with
  | some inst => rfl
  | none =>
    dsimp only
    split
    · rfl
    · split
      · rfl
      · split <;> rfl

/-! ## Concrete inputs -/

/-- A sample provisioning data record. -/
def jpd0 : JobProvisioningData :=
  { backend := "gcp", instance_type := "n1-standard-4", instance_id := "i-0"
    hostname := "10.0.0.9", region := "us-central1", price := 20
    username := "ubuntu", ssh_port := 22, dockerized := true
    pool_id := "pool-1" }

/-- An offer whose backend `run_job` raises a retriable `BackendError`. -/
def offerFail : OfferAttempt :=
  { backend := "aws", instance_name := "p3.2xlarge", region := "us-east-1"
    price := 90, outcome := .backendError true }

/-- An offer whose backend `run_job` raises a fatal `BackendError`. -/
def offerFatal : OfferAttempt :=
  { backend := "aws", instance_name := "p3.2xlarge", region := "us-east-1"
    price := 90, outcome := .backendError false }

/-- An offer whose backend `run_job` succeeds. -/
def offerOk : OfferAttempt :=
  { backend := "gcp", instance_name := "n1-standard-4", region := "us-central1"
    price := 20, outcome := .success "i-1" "10.0.0.1" "us-central1" "ubuntu" 22 true }

/-- Context for C1's witness: empty pool, `reuse-or-create`, active retry
window, one failing offer. -/
def ctxC1 : SubmittedJobCtx :=
  { pool_instances := [], accept := fun _ => true
    creation_policy := .reuse_or_create, retry_active := true
    pool_id := "pool-1", offers_error := false, offers := [offerFail] }

/-- Context for C2's witness: empty pool under the `reuse` policy. -/
def ctxC2 : SubmittedJobCtx :=
  { pool_instances := [], accept := fun _ => true
    creation_policy := .reuse, retry_active := false
    pool_id := "pool-1", offers_error := false, offers := [offerOk] }

/-- The cheaper READY instance, with the lexicographically larger name. -/
def instA : Instance :=
  { name := "zeta-1", status := .ready, job_provisioning_data := some jpd0
    price := 10 }

/-- The costlier READY instance, with the lexicographically smaller name. -/
def instB : Instance :=
  { name := "alpha-1", status := .ready
    job_provisioning_data := some { jpd0 with instance_id := "i-b" }, price := 20 }

/-- Context for C3: two READY candidates whose price order and name order
disagree. -/
def ctxC3 : SubmittedJobCtx :=
  { pool_instances := [instA, instB], accept := fun _ => true
    creation_policy := .reuse_or_create, retry_active := false
    pool_id := "pool-1", offers_error := false, offers := [] }

/-- Context for C4's witness: one READY instance carrying provisioning
data. -/
def ctxC4 : SubmittedJobCtx :=
  { pool_instances := [instA], accept := fun _ => true
    creation_policy := .reuse_or_create, retry_active := false
    pool_id := "pool-1", offers_error := false, offers := [offerOk] }

/-! ## Claims -/

/-- C1: for a `SUBMITTED` job with creation policy `reuse-or-create` and
no matching `READY` pool instance, if the Provisioner returns no
provisioning data then the tick ends with the job `PENDING` when the
retry window is active, and otherwise `FAILED` with
`FAILED_TO_START_DUE_TO_NO_CAPACITY`. -/
theorem submitted_job_all_provisioning_fails (ctx : SubmittedJobCtx)
    (hnone : ∀ i ∈ ctx.pool_instances, i.status = .ready → ctx.accept i = false)
    (hpolicy : ctx.creation_policy = .reuse_or_create)
    (hfail : run_job ctx.pool_id ctx.offers_error ctx.offers = none) :
    (ctx.retry_active = true →
        (process_submitted_job ctx).job_status = .pending) ∧
    (ctx.retry_active = false →
        (process_submitted_job ctx).job_status = .failed ∧
        (process_submitted_job ctx).error_code =
          some .failed_to_start_due_to_no_capacity) := by
  have hfilter := filter_pool_instances_nil ctx.accept ctx.pool_instances hnone
  constructor
  · intro hr
    simp [process_submitted_job, hfilter, hpolicy, hfail, pick_instance,
      sortByName, hr]
  · intro hr
    simp [process_submitted_job, hfilter, hpolicy, hfail, pick_instance,
      sortByName, hr]

/-- Witness for C1 at `ctxC1` (retry active, all offers fail): the job
ends the tick `PENDING`. -/
theorem submitted_job_all_provisioning_fails_witness :
    (process_submitted_job ctxC1).job_status = .pending :=
  (submitted_job_all_provisioning_fails ctxC1
    (by intro i hi; cases hi) rfl rfl).1 rfl

/-- C2: for a `SUBMITTED` job under creation policy `reuse`, when no
`READY` pool instance passes the profile and resource filters, the job is
set `FAILED` with `FAILED_TO_START_DUE_TO_NO_CAPACITY` and the Provisioner
(offer query and backend `run_job`) is never invoked. -/
theorem reuse_policy_no_candidates (ctx : SubmittedJobCtx)
    (hnone : ∀ i ∈ ctx.pool_instances, i.status = .ready → ctx.accept i = false)
    (hpolicy : ctx.creation_policy = .reuse) :
    (process_submitted_job ctx).job_status = .failed ∧
    (process_submitted_job ctx).error_code =
      some .failed_to_start_due_to_no_capacity ∧
    (process_submitted_job ctx).provisioner_invoked = false := by
  have hfilter := filter_pool_instances_nil ctx.accept ctx.pool_instances hnone
  simp [process_submitted_job, hfilter, hpolicy, pick_instance, sortByName]

/-- Witness for C2 at `ctxC2`. -/
theorem reuse_policy_no_candidates_witness :
    (process_submitted_job ctxC2).job_status = .failed ∧
    (process_submitted_job ctxC2).error_code =
      some .failed_to_start_due_to_no_capacity ∧
    (process_submitted_job ctxC2).provisioner_invoked = false :=
  reuse_policy_no_candidates ctxC2 (by intro i hi; cases hi) rfl

/-- Counterexample to C3: among the candidates `instA` (price 10, name
"zeta-1") and `instB` (price 20, name "alpha-1"), the code
(`process_submitted_jobs.py` line 126) sorts by `instance.name` only and
claims `instB`, not the lowest-price candidate `instA`. -/
theorem reuse_pick_ignores_price_cex :
    (process_submitted_job ctxC3).claimed_instance = some instB ∧
    instA ∈ filter_pool_instances ctxC3.accept .ready ctxC3.pool_instances ∧
    instA.price < instB.price := by
  refine ⟨?_, ?_, ?_⟩ <;> decide

/-- C3 amended: the instance chosen for reuse is the candidate with the
lexicographically smallest instance name (first in pool order on name
ties); the price is not consulted. -/
theorem reuse_pick_min_name (ctx : SubmittedJobCtx) (i : Instance)
    (h : (process_submitted_job ctx).claimed_instance = some i) :
    i ∈ filter_pool_instances ctx.accept .ready ctx.pool_instances ∧
    ∀ j ∈ filter_pool_instances ctx.accept .ready ctx.pool_instances,
      nameLe i.name j.name = true := by
  rw [process_claimed_eq] at h
  exact pick_instance_spec h

/-- Witness for the amended C3 at `ctxC3`: the claimed `instB` is a
candidate of minimal name. -/
theorem reuse_pick_min_name_witness :
    instB ∈ filter_pool_instances ctxC3.accept .ready ctxC3.pool_instances ∧
    ∀ j ∈ filter_pool_instances ctxC3.accept .ready ctxC3.pool_instances,
      nameLe instB.name j.name = true :=
  reuse_pick_min_name ctxC3 instB (by decide)

/-- C4: when `_process_submitted_job` moves the job to `PROVISIONING`
(either by reusing a pool instance whose stored provisioning data it
copies, or by a fresh provision whose built `JobProvisioningData` it
stores), the committed job carries non-null provisioning data — given
that `READY` pool instances carry provisioning data. -/
theorem provisioning_job_has_data (ctx : SubmittedJobCtx)
    (hready : ∀ i ∈ ctx.pool_instances, i.status = .ready →
        i.job_provisioning_data ≠ none) :
    (process_submitted_job ctx).job_status = .provisioning →
    (process_submitted_job ctx).job_provisioning_data ≠ none := by
  unfold process_submitted_job
  cases hp : pick_instance (filter_pool_instances ctx.accept .ready ctx.pool_instances) with
  | some inst =>
    intro _
    have hmem := (pick_instance_spec hp).1
    unfold filter_pool_instances at hmem
    have hm := List.mem_filter.mp hmem
    have hb := hm.2
    simp only [Bool.and_eq_true, decide_eq_true_eq] at hb
    simpa using hready inst hm.1 hb.1
  | none =>
    by_cases hpol : ctx.creation_policy = CreationPolicy.reuse
    · simp [hpol]
    · cases hr : run_job ctx.pool_id ctx.offers_error ctx.offers with
      | some pr => cases pr; simp [hpol]
      | none => by_cases hra : ctx.retry_active = true <;> simp [hpol, hra]

/-- Witness for C4 at `ctxC4`: the reuse transition to `PROVISIONING`
carries the instance's provisioning data. -/
theorem provisioning_job_has_data_witness :
    (process_submitted_job ctxC4).job_status = .provisioning ∧
    (process_submitted_job ctxC4).job_provisioning_data ≠ none :=
  ⟨by decide, provisioning_job_has_data ctxC4 (by decide) (by decide)⟩

/-- An unfinished job whose retry window is active, observed while its
instance's backend request status reads `TERMINATED`. -/
def cliJobRetry : CliJob :=
  { status := .running, error_code := none, retry_active := true }

/-- Counterexample to C5: for the unfinished job `cliJobRetry` whose retry
window is active, observing request status `TERMINATED` still sets the
job `FAILED` with `INSTANCE_TERMINATED` — the code's `TERMINATED` branch
never consults `retry_active()` (the retry test exists only in the
`NO_CAPACITY` branch), so the claim's "transitions to PENDING instead" is
false. -/
theorem terminated_ignores_retry_cex :
    cliJobRetry.retry_active = true ∧
    handle_request_head cliJobRetry .terminated =
      { status := .failed, error_code := some .instance_terminated,
        retry_active := true } :=
  ⟨rfl, rfl⟩

/-- C5 amended: when the backend request status of an unfinished job's
instance is observed as `TERMINATED`, the job transitions to `FAILED`
with `INSTANCE_TERMINATED` regardless of the retry window (the retry
exception applies only to the `NO_CAPACITY` observation). -/
theorem terminated_unfinished_job_fails (job : CliJob)
    (h : job.status.is_finished = false) :
    handle_request_head job .terminated =
      { job with status := .failed,
                 error_code := some .instance_terminated } := by
  simp [handle_request_head, job_update_on_request_head,
    JobStatus.is_unfinished, h]

/-- Witness for the amended C5 at `cliJobRetry`. -/
theorem terminated_unfinished_job_fails_witness :
    cliJobRetry.status.is_finished = false ∧
    handle_request_head cliJobRetry .terminated =
      { cliJobRetry with status := .failed,
                         error_code := some .instance_terminated } :=
  ⟨rfl, terminated_unfinished_job_fails cliJobRetry rfl⟩

/-- Counterexample to C6: the first offer's backend error is fatal
(`retriable = false`), yet `_run_job` does not abort provisioning and
surface the error — the bare `except BackendError` catches every backend
error alike, falls through, and the second offer is attempted and
succeeds. -/
theorem fatal_error_falls_through_cex :
    offerFatal.outcome = .backendError false ∧
    run_job "pool-1" false [offerFatal, offerOk] =
      some (mk_job_provisioning_data offerOk "i-1" "10.0.0.1" "us-central1"
        "ubuntu" 22 true "pool-1", offerOk) :=
  ⟨rfl, rfl⟩

/-- C6 amended: the offer loop walks the offers in order and every
`BackendError` raised by `backend.compute().run_job`, retriable or fatal,
causes fall-through to the next offer; no backend error aborts
provisioning or is surfaced to the caller. -/
theorem backend_error_always_falls_through (pool_id : String)
    (o : OfferAttempt) (retriable : Bool) (rest : List OfferAttempt)
    (h : o.outcome = .backendError retriable) :
    run_job_loop pool_id (o :: rest) = run_job_loop pool_id rest := by
  conv_lhs => rw [run_job_loop]
  rw [h]

/-- Witness for the amended C6: a fatal error on the first offer makes the
loop continue with the remaining offers. -/
theorem backend_error_always_falls_through_witness :
    offerFatal.outcome = .backendError false ∧
    run_job_loop "pool-1" [offerFatal, offerOk] =
      run_job_loop "pool-1" [offerOk] :=
  ⟨rfl, backend_error_always_falls_through "pool-1" offerFatal false
    [offerOk] rfl⟩

/-- One job (job_num 0) with two submissions: the earlier one `FAILED`,
the latest one `RUNNING`. -/
def rowsC7 : List JobRow :=
  [{ job_num := 0, submission_num := 0, status := .failed },
   { job_num := 0, submission_num := 1, status := .running }]

/-- The run status the claim specifies, written from the spec's words for
comparison: the status of the submission with the highest
`submission_num` among the rows of the first job (`job_num` 0). -/
def spec_first_job_latest_status (rows : List JobRow) : Option JobStatus :=
  (((sortJobRows rows).filter (fun r => decide (r.job_num = 0))).getLast?).map
    (fun r => r.status)

/-- C7 fails on the code: on `rowsC7` the computed run status is the
FIRST submission's status (`FAILED`), not the latest (`RUNNING`) — the
keyless `itertools.groupby(run_jobs)` makes every row its own group, so
`jobs[0]` is the `(job_num 0, submission_num 0)` row alone, contradicting
both the spec and the grouping intent of the `(job_num, submission_num)`
sort key. -/
theorem run_status_groupby_bug :
    run_status_of_rows rowsC7 = some .failed ∧
    spec_first_job_latest_status rowsC7 = some .running :=
  ⟨rfl, rfl⟩

/-- The old run named "r1", still active (its only submission is
`RUNNING`). -/
def runR1Active : RunRow :=
  { name := "r1", deleted := false
    job_rows := [{ job_num := 0, submission_num := 0, status := .running }] }

/-- Project state for the C8 counterexample: one configured backend, the
default pool, and the active run "r1". -/
def stC8 : ProjState :=
  { repos := ["repo1"], backends := 1, pools := ["default"]
    runs := [runR1Active] }

/-- Submission re-using the run name "r1". -/
def argsC8 : SubmitArgs :=
  { repo_id := "repo1", run_name := some "r1"
    profile_pool_name := none, num_jobs := 1 }

/-- Counterexample to C8: re-submitting the name of a still-active run
does NOT soft-delete it and create a fresh run — `delete_runs` raises
`ServerClientError` ("Cannot delete active runs") and `submit_run`
propagates it, leaving the state unchanged. -/
theorem submit_run_active_old_run_cex :
    runIsActive runR1Active = true ∧
    submit_run stC8 argsC8 "gen-1" =
      { state := stC8, error := some .activeRuns, new_run := none } :=
  ⟨rfl, rfl⟩

/-- The runs table after `delete_runs` marks the runs named `n`:
`UPDATE ... SET deleted = TRUE` on the matching rows. -/
def mark_deleted (st : ProjState) (n : String) : ProjState :=
  { st with runs := st.runs.map (fun r =>
      if [n].contains r.name then { r with deleted := true } else r) }

theorem delete_runs_finished (st : ProjState) (n : String)
    (hfinished : ∀ r ∈ st.runs, r.name = n → runIsActive r = false) :
    delete_runs st [n] = .ok (mark_deleted st n) := by
  unfold delete_runs mark_deleted
  have hcond : (st.runs.filter (fun r => [n].contains r.name)).any
      runIsActive = false := by
    rw [List.any_eq_false]
    intro r hr
    have hm := List.mem_filter.mp hr
    have hn : r.name = n := by simpa using hm.2
    simp [hfinished r hm.1 hn]
  simp only [hcond]
  simp

theorem with_pool_runs (st : ProjState) (p : String) :
    (with_pool st p).runs = st.runs := by
  unfold with_pool
  split <;> rfl

theorem mark_deleted_length (st : ProjState) (n : String) :
    (mark_deleted st n).runs.length = st.runs.length := by
  unfold mark_deleted
  simp

/-- C8 amended: submitting a run spec whose `run_name` was already used in
the project, provided every run holding that name is finished,
soft-deletes the old runs — each row is marked `deleted = True`, none is
physically removed — and creates a fresh run whose newly created jobs all
have `submission_num = 0`. -/
theorem submit_run_resubmit (st : ProjState) (a : SubmitArgs)
    (n fresh_name : String)
    (hname : a.run_name = some n)
    (hrepo : st.repos.contains a.repo_id = true)
    (hbackends : st.backends ≠ 0)
    (hfinished : ∀ r ∈ st.runs, r.name = n → runIsActive r = false) :
    (submit_run st a fresh_name).error = none ∧
    (submit_run st a fresh_name).state.runs.length = st.runs.length + 1 ∧
    (∀ r ∈ st.runs, r.name = n →
      { r with deleted := true } ∈ (submit_run st a fresh_name).state.runs) ∧
    (submit_run st a fresh_name).new_run = some (new_run_of a n) ∧
    (new_run_of a n).name = n ∧ (new_run_of a n).deleted = false ∧
    (∀ jr ∈ (new_run_of a n).job_rows, jr.submission_num = 0) := by
  have hrepo' : a.repo_id ∈ st.repos := by simpa using hrepo
  have hrun : submit_run st a fresh_name =
      submit_run_create (mark_deleted st n) a n := by
    unfold submit_run
    simp [hrepo', hbackends, hname, delete_runs_finished st n hfinished]
  rw [hrun]
  have hstate : (submit_run_create (mark_deleted st n) a n).state.runs =
      (mark_deleted st n).runs ++ [new_run_of a n] := by
    unfold submit_run_create
    dsimp only
    rw [with_pool_runs]
  refine ⟨rfl, ?_, ?_, rfl, rfl, rfl, ?_⟩
  · rw [hstate]
    simp [mark_deleted_length]
  · intro r hr hn
    rw [hstate]
    refine List.mem_append_left _ ?_
    unfold mark_deleted
    rw [List.mem_map]
    refine ⟨r, hr, ?_⟩
    rw [if_pos]
    simp [hn]
  · intro jr hjr
    simp [new_run_of, get_jobs_from_run_spec,
      create_job_model_for_new_submission] at hjr
    obtain ⟨i, _, rfl⟩ := hjr
    rfl

/-- Project state for the C8 witness: the old run "r1" is finished. -/
def stC8w : ProjState :=
  { repos := ["repo1"], backends := 1, pools := ["default"]
    runs := [{ name := "r1", deleted := false
               job_rows := [{ job_num := 0, submission_num := 0,
                              status := .done }] }] }

/-- Witness for the amended C8 at `stC8w`. -/
theorem submit_run_resubmit_witness :
    (submit_run stC8w argsC8 "gen-1").error = none ∧
    (submit_run stC8w argsC8 "gen-1").state.runs.length =
      stC8w.runs.length + 1 ∧
    (∀ r ∈ stC8w.runs, r.name = "r1" →
      { r with deleted := true } ∈ (submit_run stC8w argsC8 "gen-1").state.runs) ∧
    (submit_run stC8w argsC8 "gen-1").new_run = some (new_run_of argsC8 "r1") ∧
    (new_run_of argsC8 "r1").name = "r1" ∧
    (new_run_of argsC8 "r1").deleted = false ∧
    (∀ jr ∈ (new_run_of argsC8 "r1").job_rows, jr.submission_num = 0) :=
  submit_run_resubmit stC8w argsC8 "r1" "gen-1" rfl rfl
    (by decide) (by decide)

/-- C9: one invocation of `process_submitted_jobs` leaves the in-flight
set `SUBMITTED_PROCESSING_JOBS_IDS` exactly as it found it, whether
`_process_job` returns normally or raises — the id claimed by the select
is removed again in the `finally` clause on both paths. -/
theorem in_flight_ids_restored (jobs : List (Nat × JobStatus))
    (ids : Finset Nat) (raises : Bool) :
    (process_submitted_jobs jobs ids raises).1 = ids := by
  unfold process_submitted_jobs
  cases hsel : select_submitted jobs ids with
  | none => rfl
  | some id =>
    have hid : id ∉ ids := by
      unfold select_submitted at hsel
      cases hf : jobs.find?
          (fun j => decide (j.2 = .submitted) && decide (j.1 ∉ ids)) with
      | none => rw [hf] at hsel; cases hsel
      | some j =>
        rw [hf] at hsel
        have hp := List.find?_some hf
        simp only [Bool.and_eq_true, decide_eq_true_eq] at hp
        have hj : j.1 = id := by simpa using hsel
        rw [← hj]
        exact hp.2
    cases raises <;> simp [Finset.erase_insert hid]

/-- Project state for the C10 witness: a repo but zero backends. -/
def stC10 : ProjState :=
  { repos := ["repo1"], backends := 0, pools := [], runs := [] }

/-- Submission args for the C10 witness. -/
def argsC10 : SubmitArgs :=
  { repo_id := "repo1", run_name := some "r1"
    profile_pool_name := none, num_jobs := 1 }

/-- C10: when the project has no configured backends (and the repo lookup
succeeds), `submit_run` raises `ServerClientError` ("No backends
configured") before performing any mutation: the state is returned
untouched — no run or job row is added, no pool is created and no
existing run is soft-deleted. -/
theorem no_backends_no_mutation (st : ProjState) (a : SubmitArgs)
    (fresh_name : String)
    (hrepo : st.repos.contains a.repo_id = true)
    (hbackends : st.backends = 0) :
    submit_run st a fresh_name =
      { state := st, error := some .noBackends, new_run := none } := by
  have hrepo' : a.repo_id ∈ st.repos := by simpa using hrepo
  unfold submit_run
  simp [hrepo', hbackends]

/-- Witness for C10 at `stC10`. -/
theorem no_backends_no_mutation_witness :
    submit_run stC10 argsC10 "gen-1" =
      { state := stC10, error := some .noBackends, new_run := none } :=
  no_backends_no_mutation stC10 argsC10 "gen-1" rfl rfl

end Dstack
